import Mathlib

/-!
# Verification of the Agile Budget Tracker resource layer

Shallow embedding of the repository's serializers (`app/serializers.py`) and
viewsets (`app/views.py`) together with proofs about the ROI computation,
date-range validation, the `high_roi` filtered view, the read-only User
resource, and the field sets of the serialized representations.

Monetary amounts are Django `DecimalField`s, i.e. exact decimal numbers; they
are embedded as rationals (`ℚ`).  Python's `round(x, 4)` rounds half to even;
`round4` below mirrors that on the exact rational value (the transient
conversion through a binary float in `get_roi` is abstracted away, as the spec
fixes the semantics to exact decimal arithmetic rounded at the boundary).
Calendar dates carry only their ordering here and are embedded as `ℤ`.
-/

namespace AgileBudget

/-- A JSON-like value as produced by the serialization layer. -/
inductive JsonVal where
  | jnull : JsonVal
  | jint : ℤ → JsonVal
  | jrat : ℚ → JsonVal
  | jstr : String → JsonVal
  deriving DecidableEq, Repr

/-- Round a rational to the nearest integer, ties to even (Python `round`). -/
def roundHalfEven (x : ℚ) : ℤ :=
  let n := ⌊x⌋
  let r := x - n
  if r < 1/2 then n
  else if 1/2 < r then n + 1
  else if n % 2 = 0 then n else n + 1

/-- Round a rational to 4 decimal places, ties to even (Python `round(x, 4)`). -/
def round4 (x : ℚ) : ℚ :=
  (roundHalfEven (x * 10000) : ℚ) / 10000

/-- The persisted fields of `SprintMetric` (`app/models.py` via the serializer):
owning sprint reference, cost, estimated business value, velocity. -/
structure SprintMetric where
  sprint : ℕ
  cost : ℚ
  estimated_business_value : ℚ
  velocity : ℤ
  deriving DecidableEq, Repr

/-- `SprintMetricSerializer.get_roi` (`app/serializers.py` lines 45-55):
`None` when `cost == 0`, otherwise `(estimated_business_value - cost) / cost`
rounded to 4 decimal places. -/
def get_roi (m : SprintMetric) : Option ℚ :=
  if m.cost = 0 then none
  else some (round4 ((m.estimated_business_value - m.cost) / m.cost))

/-- `SprintMetricSerializer.Meta.fields`. -/
def sprintMetricFields : List String :=
  ["sprint", "cost", "estimated_business_value", "velocity", "roi"]

/-- `SprintMetricSerializer.Meta.read_only_fields`. -/
def sprintMetricReadOnlyFields : List String := ["roi"]

/-- The serialized representation of a `SprintMetric`: the model fields of
`Meta.fields` pass through, plus the computed read-only `roi` method field. -/
def serializeMetric (m : SprintMetric) : List (String × JsonVal) :=
  [("sprint", .jint m.sprint),
   ("cost", .jrat m.cost),
   ("estimated_business_value", .jrat m.estimated_business_value),
   ("velocity", .jint m.velocity),
   ("roi", match get_roi m with
           | none => .jnull
           | some r => .jrat r)]

/-- Modelled from the spec: `app/models.py` is not among the provided sources,
and `SprintMetricViewSet.high_roi` reads the model property `metric.roi`.
Per the spec, the model-level ROI is "(estimated_business_value − cost) / cost
when cost ≠ 0; undefined/absent (not an error, not zero) when cost == 0",
"computed on every read, at full decimal precision internally". -/
def SprintMetric.roi (m : SprintMetric) : Option ℚ :=
  if m.cost = 0 then none
  else some ((m.estimated_business_value - m.cost) / m.cost)

/-- The inbound fields of a Sprint create/update payload relevant to
validation; a `none` field is one absent from the payload. -/
structure SprintPayload where
  project : Option ℕ
  start_date : Option ℤ
  end_date : Option ℤ
  deriving DecidableEq, Repr

/-- The field-scoped error raised by `SprintSerializer.validate`. -/
def endDateError : String × String :=
  ("end_date", "End date must be after or equal to start date.")

/-- `SprintSerializer.validate` (`app/serializers.py` lines 71-80): when both
dates are in the payload (`data.get(...)` truthiness; `datetime.date` objects
are always truthy) and `end_date < start_date`, raise a `ValidationError`
keyed on `end_date`; otherwise return the data unchanged. -/
def SprintSerializer.validate (data : SprintPayload) :
    Except (String × String) SprintPayload :=
  match data.end_date, data.start_date with
  | some e, some s => if e < s then .error endDateError else .ok data
  | _, _ => .ok data

/-- Create pipeline: DRF runs `serializer.is_valid` before `save`, so an
invalid payload is rejected before any persistence happens. -/
def sprintCreate (data : SprintPayload) (db : List SprintPayload) :
    Except (String × String) (List SprintPayload) :=
  match SprintSerializer.validate data with
  | .error e => .error e
  | .ok d => .ok (db ++ [d])

/-- A stored Sprint row (identifier, owning project, date range). -/
structure Sprint where
  id : ℕ
  project : ℕ
  start_date : ℤ
  end_date : ℤ
  deriving DecidableEq, Repr

/-- PATCH application: only fields supplied in the payload overwrite the
stored ones (DRF validates only the supplied fields on a PATCH). -/
def applyPatch (sp : Sprint) (data : SprintPayload) : Sprint :=
  { sp with
    project := data.project.getD sp.project
    start_date := data.start_date.getD sp.start_date
    end_date := data.end_date.getD sp.end_date }

/-- PATCH pipeline: validate the supplied fields, then merge into the stored
row. -/
def sprintPatch (sp : Sprint) (data : SprintPayload) :
    Except (String × String) Sprint :=
  match SprintSerializer.validate data with
  | .error e => .error e
  | .ok d => .ok (applyPatch sp d)

/-- The standard list representation of the SprintMetric collection. -/
def metricListView (qs : List SprintMetric) : List (List (String × JsonVal)) :=
  qs.map serializeMetric

/-- `SprintMetricViewSet.high_roi` (`app/views.py` lines 65-76): a list
comprehension over the full queryset keeping metrics with
`metric.roi is not None and metric.roi > 0.5`, then serialized with the
standard serializer. -/
def high_roi (qs : List SprintMetric) : List (List (String × JsonVal)) :=
  (qs.filter (fun m =>
    match m.roi with
    | none => false
    | some r => decide ((1 : ℚ)/2 < r))).map serializeMetric

/-- A User row (`AUTH_USER_MODEL = 'app.User'`): account fields plus the
write-only password credential held in storage. -/
structure User where
  id : ℕ
  username : String
  email : String
  first_name : String
  last_name : String
  role : String
  date_joined : ℤ
  password : String
  deriving DecidableEq, Repr

/-- `UserSerializer.Meta.fields` (`app/serializers.py` lines 5-13). -/
def userSerializerFields : List String :=
  ["id", "username", "email", "first_name", "last_name", "role", "date_joined"]

/-- The serialized representation of a User: exactly the `Meta.fields`
columns; the password is not among them. -/
def serializeUser (u : User) : List (String × JsonVal) :=
  [("id", .jint u.id),
   ("username", .jstr u.username),
   ("email", .jstr u.email),
   ("first_name", .jstr u.first_name),
   ("last_name", .jstr u.last_name),
   ("role", .jstr u.role),
   ("date_joined", .jint u.date_joined)]

/-- Case-insensitive substring test (the `icontains` lookup used by DRF's
SearchFilter). -/
def icontains (hay pat : String) : Bool :=
  decide (pat.toLower.toList <:+: hay.toLower.toList)

/-- `UserViewSet.search_fields`. -/
def userSearchValues (u : User) : List String :=
  [u.username, u.email, u.first_name, u.last_name]

/-- SearchFilter: keep the rows where some search field contains the term;
no term means no filtering. -/
def applySearch (term : Option String) (users : List User) : List User :=
  match term with
  | none => users
  | some t => users.filter (fun u => (userSearchValues u).any (fun f => icontains f t))

/-- Insert into a list sorted by `le`. -/
def insertBy {α : Type} (le : α → α → Bool) (a : α) : List α → List α
  | [] => [a]
  | b :: bs => if le a b then a :: b :: bs else b :: insertBy le a bs

/-- Insertion sort by `le`. -/
def sortBy {α : Type} (le : α → α → Bool) : List α → List α
  | [] => []
  | a :: as => insertBy le a (sortBy le as)

/-- Comparison for one `ordering` key over `UserViewSet.ordering_fields`
(`username`, `date_joined`, optionally '-'-prefixed for descending). -/
def userLe (field : String) (u v : User) : Bool :=
  if field = "username" then decide (u.username ≤ v.username)
  else if field = "-username" then decide (v.username ≤ u.username)
  else if field = "date_joined" then decide (u.date_joined ≤ v.date_joined)
  else if field = "-date_joined" then decide (v.date_joined ≤ u.date_joined)
  else true

/-- OrderingFilter: sort by the requested key when it is one of the
viewset's `ordering_fields`, else fall back to the default
`ordering = ['username']`. -/
def applyUserOrdering (ord : Option String) (users : List User) : List User :=
  let f := ord.getD "username"
  let f := if f ∈ ["username", "-username", "date_joined", "-date_joined"]
           then f else "username"
  sortBy (userLe f) users

/-- Query parameters of a User list request. -/
structure UserListQuery where
  role : Option String
  search : Option String
  ordering : Option String
  deriving DecidableEq, Repr

/-- `UserViewSet` list filtering (`app/views.py` lines 79-91): the viewset
sets `filter_backends = [SearchFilter, OrderingFilter]`, which overrides the
project-wide `DEFAULT_FILTER_BACKENDS`; `DjangoFilterBackend` is therefore
not run for this viewset, so the `filterset_fields = ['role']` declaration
is inert and the `role` query parameter is never consulted. -/
def userListQueryset (q : UserListQuery) (users : List User) : List User :=
  applyUserOrdering q.ordering (applySearch q.search users)

/-- HTTP action on a collection+item resource (DRF viewset actions; `patch`
is partial_update, `destroy` is delete). -/
inductive Action where
  | list
  | retrieve
  | create
  | update
  | patch
  | destroy
  deriving DecidableEq, Repr

/-- Modelled from the spec: DRF viewset internals are outside the provided
sources. `UserViewSet` extends `ReadOnlyModelViewSet`, which per the spec
exposes "list/retrieve only; no create/update/delete through this API". -/
def readOnlyActions : List Action := [.list, .retrieve]

/-- Modelled from the spec: dispatch for the read-only User resource — write
verbs "are routed as 405 Method Not Allowed since those operations aren't
exposed", and the stored rows are untouched. -/
def userDispatch (a : Action) (db : List User) : ℕ × List User :=
  if a ∈ readOnlyActions then (200, db) else (405, db)

end AgileBudget

namespace AgileBudget

/-- C1: for every SprintMetric with cost > 0, the serialized `roi` field is
`(estimated_business_value - cost) / cost`, computed over the decimal inputs
and exposed rounded to 4 decimal places. -/
theorem serialized_roi_formula (m : SprintMetric) (h : 0 < m.cost) :
    List.lookup "roi" (serializeMetric m) =
      some (.jrat (round4 ((m.estimated_business_value - m.cost) / m.cost))) := by
  have hne : m.cost ≠ 0 := ne_of_gt h
  simp [serializeMetric, get_roi, hne, List.lookup]

/-- Witness for C1: cost = 1000.00, value = 1500.00 serializes `roi` = 0.5. -/
theorem serialized_roi_formula_witness :
    (0 : ℚ) < 1000 ∧
    List.lookup "roi" (serializeMetric ⟨1, 1000, 1500, 20⟩) =
      some (.jrat (1/2)) := by
  refine ⟨by norm_num, ?_⟩
  rw [serialized_roi_formula ⟨1, 1000, 1500, 20⟩ (by norm_num)]
  norm_num [round4, roundHalfEven]

/-- C8: for cost = 987.65 and estimated_business_value = 1234.56 the
serialized `roi` equals 0.2500: exact decimal subtraction and division give
24691/98765 ≈ 0.24999747, which rounds to 0.2500 at 4 decimal places. -/
theorem roi_scenario_f :
    List.lookup "roi" (serializeMetric ⟨1, 98765/100, 123456/100, 22⟩) =
      some (.jrat (2500/10000)) ∧
    round4 ((123456/100 - 98765/100) / (98765/100 : ℚ)) = 2500/10000 := by
  constructor
  · simp [serializeMetric, get_roi, List.lookup]
    norm_num [round4, roundHalfEven]
  · norm_num [round4, roundHalfEven]

/-- C2 counterexample: the claim "for cost != 0, roi == 0 exactly when
estimated_business_value == cost" is false for the serialized `roi`: with
cost = 100000.00 and estimated_business_value = 100001.00 the exact ROI is
1/100000 = 0.00001, which rounds to 0.0000 at 4 decimal places, so the
serialized `roi` is 0 although value ≠ cost. -/
theorem roi_zero_not_only_breakeven :
    get_roi ⟨1, 100000, 100001, 10⟩ = some 0 ∧
    (⟨1, 100000, 100001, 10⟩ : SprintMetric).estimated_business_value ≠
      (⟨1, 100000, 100001, 10⟩ : SprintMetric).cost := by
  constructor
  · simp only [get_roi]
    norm_num [round4, roundHalfEven]
  · norm_num

/-- C2 (amended): for cost == 0 the serialized `roi` is null regardless of
estimated_business_value, and `some 0` is distinguishable from `none`; for
cost != 0, break-even (value = cost) gives `roi = 0`, and more generally the
serialized `roi` is 0 exactly when the exact ratio rounds to 0 at 4 decimal
places. -/
theorem roi_null_and_zero_semantics (m : SprintMetric) :
    (m.cost = 0 → get_roi m = none) ∧
    (m.cost ≠ 0 →
      (m.estimated_business_value = m.cost → get_roi m = some 0) ∧
      (get_roi m = some 0 ↔
        round4 ((m.estimated_business_value - m.cost) / m.cost) = 0)) ∧
    (∀ r : ℚ, (some r : Option ℚ) ≠ none) := by
  refine ⟨fun h => by simp [get_roi, h], fun h => ⟨fun hv => ?_, ?_⟩, by simp⟩
  · simp [get_roi, h, hv]
    norm_num [round4, roundHalfEven]
  · simp [get_roi, h]

/-- Witness for C2 (amended): cost = 0 gives a null roi; cost = value = 1000
gives roi = 0. -/
theorem roi_null_and_zero_semantics_witness :
    get_roi ⟨1, 0, 1000, 10⟩ = none ∧ get_roi ⟨1, 1000, 1000, 18⟩ = some 0 := by
  constructor
  · exact (roi_null_and_zero_semantics ⟨1, 0, 1000, 10⟩).1 rfl
  · exact ((roi_null_and_zero_semantics ⟨1, 1000, 1000, 18⟩).2.1 (by norm_num)).1 rfl

/-- C3: when both dates are present in the payload, `end_date < start_date`
is rejected with a field error on `end_date` before any persistence, and
`end_date >= start_date` passes validation and persists. -/
theorem sprint_date_validation (data : SprintPayload) (db : List SprintPayload)
    (s e : ℤ) (hs : data.start_date = some s) (he : data.end_date = some e) :
    (e < s →
      SprintSerializer.validate data = .error endDateError ∧
      sprintCreate data db = .error endDateError) ∧
    (s ≤ e →
      SprintSerializer.validate data = .ok data ∧
      sprintCreate data db = .ok (db ++ [data])) := by
  constructor
  · intro h
    simp [SprintSerializer.validate, sprintCreate, hs, he, h]
  · intro h
    simp [SprintSerializer.validate, sprintCreate, hs, he, not_lt.mpr h]

/-- Witness for C3: start = day 10, end = day 5 is rejected on `end_date`;
start = end = day 10 is accepted. -/
theorem sprint_date_validation_witness :
    SprintSerializer.validate ⟨some 1, some 10, some 5⟩ = .error endDateError ∧
    SprintSerializer.validate ⟨some 1, some 10, some 10⟩ =
      .ok ⟨some 1, some 10, some 10⟩ := by
  constructor
  · exact ((sprint_date_validation ⟨some 1, some 10, some 5⟩ [] 10 5 rfl rfl).1
      (by decide)).1
  · exact ((sprint_date_validation ⟨some 1, some 10, some 10⟩ [] 10 10 rfl rfl).2
      (by decide)).1

/-- C9: a PATCH payload carrying only `end_date` skips the date-ordering
check entirely (`data.get('start_date')` is falsy), so it is accepted even
when the new end date precedes the stored start date, leaving a stored
Sprint with `end_date < start_date`. -/
theorem patch_skips_date_check (sp : Sprint) (e : ℤ) (h : e < sp.start_date) :
    SprintSerializer.validate ⟨none, none, some e⟩ = .ok ⟨none, none, some e⟩ ∧
    sprintPatch sp ⟨none, none, some e⟩ = .ok { sp with end_date := e } ∧
    ({ sp with end_date := e } : Sprint).end_date <
      ({ sp with end_date := e } : Sprint).start_date := by
  refine ⟨rfl, ?_, h⟩
  simp [sprintPatch, SprintSerializer.validate, applyPatch]

/-- Witness for C9: stored sprint with start = day 10, end = day 12; a PATCH
of only end = day 5 is accepted and stores end < start. -/
theorem patch_skips_date_check_witness :
    (5 : ℤ) < 10 ∧
    sprintPatch ⟨1, 1, 10, 12⟩ ⟨none, none, some 5⟩ = .ok ⟨1, 1, 10, 5⟩ := by
  exact ⟨by decide, (patch_skips_date_check ⟨1, 1, 10, 12⟩ 5 (by decide)).2.1⟩

/-- C4: the `high_roi` view returns exactly the metrics whose roi is
non-null and strictly greater than 0.5, serialized with the standard metric
serializer, as a sublist (same order) of the standard list representation,
computed over the full result set. -/
theorem high_roi_exactly_above_half (qs : List SprintMetric) :
    (∀ x, x ∈ high_roi qs ↔
      ∃ m ∈ qs, (∃ r, m.roi = some r ∧ (1 : ℚ)/2 < r) ∧ x = serializeMetric m) ∧
    List.Sublist (high_roi qs) (metricListView qs) := by
  constructor
  · intro x
    simp only [high_roi, List.mem_map, List.mem_filter]
    constructor
    · rintro ⟨m, ⟨hm, hf⟩, hx⟩
      refine ⟨m, hm, ?_, hx.symm⟩
      cases hroi : m.roi with
      | none => rw [hroi] at hf; simp at hf
      | some r =>
        rw [hroi] at hf
        exact ⟨r, rfl, by simpa using hf⟩
    · rintro ⟨m, hm, ⟨r, hr, hlt⟩, hx⟩
      exact ⟨m, ⟨hm, by rw [hr]; simpa using hlt⟩, hx.symm⟩
  · exact List.Sublist.map _ (List.filter_sublist _)

/-- C5: the User resource exposes only list and retrieve; every write action
answers 405 Method Not Allowed and leaves the stored users unchanged. -/
theorem user_viewset_read_only (a : Action) (db : List User)
    (h : a = .create ∨ a = .update ∨ a = .patch ∨ a = .destroy) :
    (userDispatch a db).1 = 405 ∧ (userDispatch a db).2 = db ∧
    readOnlyActions = [.list, .retrieve] := by
  rcases h with h | h | h | h <;> subst h <;>
    exact ⟨rfl, rfl, rfl⟩

/-- Witness for C5: a delete request against a one-user store answers 405
and the store is unchanged. -/
theorem user_viewset_read_only_witness :
    (userDispatch .destroy [⟨1, "alice", "a@example.com", "A", "L", "admin", 0, "pw"⟩]).1
      = 405 ∧
    (userDispatch .destroy [⟨1, "alice", "a@example.com", "A", "L", "admin", 0, "pw"⟩]).2
      = [⟨1, "alice", "a@example.com", "A", "L", "admin", 0, "pw"⟩] := by
  have h := user_viewset_read_only .destroy
    [⟨1, "alice", "a@example.com", "A", "L", "admin", 0, "pw"⟩]
    (Or.inr (Or.inr (Or.inr rfl)))
  exact ⟨h.1, h.2.1⟩

/-- C6 (code evaluated at the failing input): a User list request with
`?role=admin` over users of roles admin and viewer returns both users — the
role parameter is ignored because `DjangoFilterBackend` is missing from
`UserViewSet.filter_backends` — although the claim requires only the admin
user. -/
theorem role_filter_inert :
    userListQueryset ⟨some "admin", none, none⟩
      [⟨1, "alice", "a@example.com", "A", "L", "admin", 0, "pw"⟩,
       ⟨2, "bob", "b@example.com", "B", "M", "viewer", 0, "pw"⟩] =
      [⟨1, "alice", "a@example.com", "A", "L", "admin", 0, "pw"⟩,
       ⟨2, "bob", "b@example.com", "B", "M", "viewer", 0, "pw"⟩] ∧
    (⟨2, "bob", "b@example.com", "B", "M", "viewer", 0, "pw"⟩ : User).role
      ≠ "admin" := by
  constructor
  · simp [userListQueryset, applySearch, applyUserOrdering, sortBy, insertBy, userLe]
    decide
  · decide

/-- C7: the serialized User has exactly the fields id, username, email,
first_name, last_name, role, date_joined; the password never appears, and
the output does not depend on the password value. -/
theorem user_serializer_excludes_password (u : User) :
    (serializeUser u).map Prod.fst = userSerializerFields ∧
    userSerializerFields =
      ["id", "username", "email", "first_name", "last_name", "role",
       "date_joined"] ∧
    "password" ∉ (serializeUser u).map Prod.fst ∧
    ∀ p : String, serializeUser { u with password := p } = serializeUser u := by
  refine ⟨rfl, rfl, ?_, fun p => rfl⟩
  have h : (serializeUser u).map Prod.fst = userSerializerFields := rfl
  rw [h]
  decide

/-- C10: the serialized SprintMetric carries no identifier of its own: its
field set is exactly sprint, cost, estimated_business_value, velocity, roi,
with roi read-only. -/
theorem metric_serializer_field_set (m : SprintMetric) :
    (serializeMetric m).map Prod.fst = sprintMetricFields ∧
    sprintMetricFields =
      ["sprint", "cost", "estimated_business_value", "velocity", "roi"] ∧
    "id" ∉ (serializeMetric m).map Prod.fst ∧
    "roi" ∈ sprintMetricReadOnlyFields := by
  refine ⟨rfl, rfl, ?_, by decide⟩
  have h : (serializeMetric m).map Prod.fst = sprintMetricFields := rfl
  rw [h]
  decide

end AgileBudget
